import Mathlib

/-!
Verification of the MedSync AI application against its specification.

The development shallowly embeds the parts of the TypeScript source that the
claims concern:
* the local-storage chat history store (`getChatHistory`, `sendMessage`,
  `deleteChatHistory`, seeding via `initializeChatStorage`);
* the top-level application state handlers (`handleTakeDose`, `handleRefill`,
  the cart handlers);
* the two versions of the AI gateway (`checkDrugInteractions` returning a
  string vs. a structured object, plus the error fallbacks of the other
  gateway functions);
* the medication reminder poller (`checkReminders` with its once-per-minute
  guard).

Browser local storage is modelled as `Option (List StoredChatMessage)`
(`none` = key absent), the wall clock (`Date.now()`) as explicit integer
parameters, and each hosted-model call as an `Except Unit _` oracle argument
(`Except.error` = the call or the JSON parse threw).  JavaScript numbers that
the code only adds, subtracts, and compares are modelled as `Int`.
-/

namespace MedSync

/-- `MedStatus` enum from `src/types.ts`. -/
inductive MedStatus where
  | ACTIVE
  | COMPLETED
  | PAUSED
deriving DecidableEq, Repr

/-- `DoseStatus` enum from `src/types.ts`. -/
inductive DoseStatus where
  | PENDING
  | TAKEN
  | SKIPPED
  | LATE
deriving DecidableEq, Repr

/-- The `'doctor' | 'patient'` union used for `senderRole` in `src/types.ts`. -/
inductive ChatRole where
  | doctor
  | patient
deriving DecidableEq, Repr

/-- `Medication` interface from `src/types.ts`. -/
structure Medication where
  id : String
  name : String
  dosage : String
  frequency : String
  times : List String
  instructions : String
  startDate : String
  endDate : Option String := none
  status : MedStatus
  stock : Int
  prescribedBy : Option String := none
deriving DecidableEq, Repr

/-- `DoseLog` interface from `src/types.ts`. -/
structure DoseLog where
  id : String
  medicationId : String
  scheduledTime : String
  takenTime : Option String := none
  status : DoseStatus
  notes : Option String := none
deriving DecidableEq, Repr

/-- `StoredChatMessage` interface from `src/types.ts`. -/
structure StoredChatMessage where
  id : String
  senderId : String
  receiverId : String
  senderRole : ChatRole
  text : String
  timestamp : Int
deriving DecidableEq, Repr

/-- `Product` interface from `src/types.ts`. -/
structure Product where
  id : String
  name : String
  category : String
  price : Rat
  image : String
  description : String
  stock : Int
deriving DecidableEq, Repr

/-- `CartItem extends Product { quantity }` from `src/types.ts`. -/
structure CartItem where
  id : String
  name : String
  category : String
  price : Rat
  image : String
  description : String
  stock : Int
  quantity : Int
deriving DecidableEq, Repr

/-- Helper for JavaScript `String.prototype.includes`, on character lists:
`needle` occurs contiguously inside `hay`. -/
def infixCheck (needle : List Char) : List Char → Bool
  | [] => needle.isEmpty
  | c :: t => needle.isPrefixOf (c :: t) || infixCheck needle t

/-- JavaScript `hay.includes(needle)`. -/
def jsIncludes (hay needle : String) : Bool :=
  infixCheck needle.toList hay.toList

/-- JavaScript `hay.startsWith(pre)`. -/
def jsStartsWith (hay pre : String) : Bool :=
  pre.toList.isPrefixOf hay.toList

namespace ChatService

/-- `MOCK_USER_PATIENT.id` from `src/services/mockData.ts`. -/
def mockPatientId : String := "p1"

/-- `MOCK_USER_DOCTOR.id` from `src/services/mockData.ts`. -/
def mockDoctorId : String := "d1"

/-- The two seed messages written by `initializeChatStorage`
(`src/unnamed/part_000`, lines 10-27); `now` stands for `Date.now()`. -/
def seedMessages (now : Int) : List StoredChatMessage :=
  [ { id := "init-1"
      senderId := mockPatientId
      receiverId := mockDoctorId
      senderRole := ChatRole.patient
      text := "Hi Dr. Ray, I have been feeling a bit dizzy after the morning dose."
      timestamp := now - 86400000 },
    { id := "init-2"
      senderId := mockDoctorId
      receiverId := mockPatientId
      senderRole := ChatRole.doctor
      text := "Hello Sarah. That is a known side effect of Lisinopril. Please monitor your blood pressure and let me know if it persists."
      timestamp := now - 82000000 } ]

/-- `initializeChatStorage` (`src/unnamed/part_000`, lines 7-30, source name
`initializeChatStorage`): seeds the store with the two mock messages when
the local-storage key is absent. -/
def initChatStorage (now : Int) (store : Option (List StoredChatMessage)) :
    Option (List StoredChatMessage) :=
  match store with
  | none => some (seedMessages now)
  | some l => some l

/-- The per-message conversation filter used by `getChatHistory` and
`deleteChatHistory`: the message is exchanged between `u1` and `u2`. -/
def matchesPair (u1 u2 : String) (m : StoredChatMessage) : Bool :=
  (m.senderId == u1 && m.receiverId == u2) ||
  (m.senderId == u2 && m.receiverId == u1)

/-- The comparator `(a, b) => a.timestamp - b.timestamp` passed to
`Array.prototype.sort`, as the corresponding ordering relation. -/
def tsLE (a b : StoredChatMessage) : Prop :=
  a.timestamp ≤ b.timestamp

instance : DecidableRel tsLE := fun a b => inferInstanceAs (Decidable (a.timestamp ≤ b.timestamp))

instance : IsTotal StoredChatMessage tsLE := ⟨fun a b => Int.le_total a.timestamp b.timestamp⟩

instance : IsTrans StoredChatMessage tsLE := ⟨fun _ _ _ hab hbc => le_trans hab hbc⟩

/-- `getChatHistory` (`src/unnamed/part_000`, lines 32-44).  Returns the
sorted conversation thread together with the store as left behind by the
call (`initializeChatStorage` may have written the seed messages). -/
def getChatHistory (userId1 userId2 : String) (now : Int)
    (store : Option (List StoredChatMessage)) :
    List StoredChatMessage × Option (List StoredChatMessage) :=
  let store' := initChatStorage now store
  let allMessages := store'.getD []
  let thread := allMessages.filter (fun msg => matchesPair userId1 userId2 msg)
  (List.insertionSort tsLE thread, store')

/-- `sendMessage` (`src/unnamed/part_000`, lines 46-68).  `idNow` and `now`
stand for the two successive `Date.now()` calls (id and timestamp). -/
def sendMessage (senderId receiverId : String) (senderRole : ChatRole)
    (text : String) (idNow now : Int)
    (store : Option (List StoredChatMessage)) :
    StoredChatMessage × Option (List StoredChatMessage) :=
  let allMessages := store.getD []
  let newMessage : StoredChatMessage :=
    { id := toString idNow
      senderId := senderId
      receiverId := receiverId
      senderRole := senderRole
      text := text
      timestamp := now }
  (newMessage, some (allMessages ++ [newMessage]))

/-- `deleteChatHistory` (`src/unnamed/part_000`, lines 70-84). -/
def deleteChatHistory (userId1 userId2 : String) (now : Int)
    (store : Option (List StoredChatMessage)) :
    Option (List StoredChatMessage) :=
  match initChatStorage now store with
  | none => none
  | some allMessages =>
      some (allMessages.filter (fun msg => !(matchesPair userId1 userId2 msg)))

end ChatService

namespace App

/-- The app-level data state held by the `App` component: the medication
list and the dose-log list. -/
structure AppState where
  meds : List Medication
  logs : List DoseLog
deriving DecidableEq, Repr

/-- `handleTakeDose` (`src/App.tsx`, lines 91-98): append the dose log and
decrement the matching medication's stock, floored at zero
(`Math.max(0, med.stock - 1)`). -/
def handleTakeDose (st : AppState) (log : DoseLog) : AppState :=
  { logs := st.logs ++ [log]
    meds := st.meds.map (fun med =>
      if med.id = log.medicationId then
        { med with stock := max 0 (med.stock - 1) }
      else med) }

/-- `handleRefill` (the `App` component snapshot stored in `src/types.ts`,
lines 166-172): add the mock refill amount of 30 units to the matching
medication's stock. -/
def handleRefill (medId : String) (meds : List Medication) : List Medication :=
  meds.map (fun med =>
    if med.id = medId then { med with stock := med.stock + 30 } else med)

/-- The item argument of `handleAddToCart` in `src/App.tsx`: either a
`Product` or a `Medication` (the code distinguishes them by `'price' in item`). -/
def ItemOrMed := Product ⊕ Medication

/-- The id taken from the cart-add argument (`const itemId = item.id`). -/
def itemIdOf : Product ⊕ Medication → String
  | Sum.inl p => p.id
  | Sum.inr m => m.id

/-- The cart line `handleAddToCart` builds for a `Medication`
(`src/App.tsx`, lines 115-127). -/
def cartItemOfMedication (med : Medication) (quantity : Int) : CartItem :=
  { id := med.id
    name := med.name
    category := "Prescription"
    description := "Refill for " ++ med.name ++ " " ++ med.dosage
    price := 15
    image := "https://images.unsplash.com/photo-1585435557343-3b092031a831?auto=format&fit=crop&q=80&w=200"
    stock := 999
    quantity := quantity }

/-- The cart line built for a plain `Product` (`{ ...item, quantity }`). -/
def cartItemOfProduct (p : Product) (quantity : Int) : CartItem :=
  { id := p.id
    name := p.name
    category := p.category
    description := p.description
    price := p.price
    image := p.image
    stock := p.stock
    quantity := quantity }

/-- `handleAddToCart` (`src/App.tsx`, lines 101-133): if a line with the
item's id exists, bump its quantity; otherwise append a new line (adapting
a `Medication` to a product shape). -/
def handleAddToCart (cart : List CartItem) (item : Product ⊕ Medication)
    (quantity : Int) : List CartItem :=
  match cart.find? (fun i => i.id == itemIdOf item) with
  | some _ =>
      cart.map (fun i =>
        if i.id = itemIdOf item then { i with quantity := i.quantity + quantity } else i)
  | none =>
      match item with
      | Sum.inl p => cart ++ [cartItemOfProduct p quantity]
      | Sum.inr med => cart ++ [cartItemOfMedication med quantity]

/-- `handleUpdateCartQuantity` (`src/App.tsx`, lines 135-142): shift the
matching line's quantity by `delta`, clamped below at 1. -/
def handleUpdateCartQuantity (cart : List CartItem) (id : String) (delta : Int) :
    List CartItem :=
  cart.map (fun item =>
    if item.id = id then { item with quantity := max 1 (item.quantity + delta) } else item)

/-- `handleRemoveFromCart` (`src/App.tsx`, lines 144-146). -/
def handleRemoveFromCart (cart : List CartItem) (id : String) : List CartItem :=
  cart.filter (fun item => !(item.id == id))

/-- `handleClearCart` (`src/App.tsx`, lines 148-150). -/
def handleClearCart : List CartItem := []

/-- The cart invariant of claim C10: every line has quantity at least 1 and
no two lines share a product id. -/
def cartInvariant (cart : List CartItem) : Prop :=
  (∀ item ∈ cart, 1 ≤ item.quantity) ∧ cart.Pairwise (fun a b => a.id ≠ b.id)

instance (cart : List CartItem) : Decidable (cartInvariant cart) :=
  inferInstanceAs (Decidable (_ ∧ _))

end App

namespace Gemini

/-- The structured `{ hasInteractions, summary }` return shape of the
`checkDrugInteractions` version stored in `src/services/mockData.ts`. -/
structure InteractionReport where
  hasInteractions : Bool
  summary : String
deriving DecidableEq, Repr

/-- A JavaScript value returned by one of the two `checkDrugInteractions`
versions: a plain string or a `{ hasInteractions, summary }` object. -/
inductive JsInteractionValue where
  | vStr : String → JsInteractionValue
  | vObj : InteractionReport → JsInteractionValue
deriving DecidableEq, Repr

/-- The parsed-JSON shape consumed by `analyzeWoundImage`; each field may be
absent (`undefined`) in the model's reply. -/
structure WoundJson where
  severity : Option Int
  analysis : Option String
  recommendations : Option (List String)
deriving DecidableEq, Repr

/-- The `{ severity, analysis, recommendations }` result of
`analyzeWoundImage`. -/
structure WoundResult where
  severity : Int
  analysis : String
  recommendations : List String
deriving DecidableEq, Repr

/-- The `{ name, description, confidence, warning? }` result of
`identifyPill`. -/
structure PillResult where
  name : String
  description : String
  confidence : String
  warning : Option String := none
deriving DecidableEq, Repr

/-- `sendChatMessage` (`src/services/geminiService.ts`, lines 11-37).  The
oracle stands for the hosted-model call: `Except.error` is a thrown error,
`Except.ok none` an empty/absent `result.text`.  The returned boolean
records whether the `catch` block logged to the console. -/
def sendChatMessageRun (oracle : Except Unit (Option String)) : Bool × String :=
  match oracle with
  | Except.ok t => (false, t.getD "I apologize, I couldn\x27t process that response.")
  | Except.error _ =>
      (true, "I\x27m having trouble connecting to the medical database right now. Please try again later.")

/-- `checkDrugInteractions`, string version
(`src/services/geminiService.ts`, lines 40-59).  Note its `catch` block
returns the fallback without a `console.error` call, so the logged flag is
`false` on the error path. -/
def checkDrugInteractionsV1 (medications : List Medication)
    (oracle : Except Unit (Option String)) : Bool × String :=
  if medications.length < 2 then
    (false, "No interactions found (single medication).")
  else
    match oracle with
    | Except.ok t => (false, t.getD "Analysis complete.")
    | Except.error _ => (false, "Unable to verify interactions at this time.")

/-- `checkDrugInteractions`, structured version (the gateway snapshot stored
in `src/services/mockData.ts`, lines 145-171).  The oracle yields the parsed
`{ hasInteractions, summary }` JSON; `Except.error` is a thrown call or
parse error. -/
def checkDrugInteractionsV2 (medications : List Medication)
    (oracle : Except Unit InteractionReport) : InteractionReport :=
  if medications.length < 2 then
    { hasInteractions := false, summary := "No interactions found (single medication)." }
  else
    match oracle with
    | Except.ok report => report
    | Except.error _ =>
        { hasInteractions := false, summary := "Unable to verify interactions." }

/-- `analyzeWoundImage` (`src/services/geminiService.ts`, lines 62-113):
apply the `||` defaults on success, log and return the severity-0 fallback
on any error. -/
def analyzeWoundImageRun (oracle : Except Unit WoundJson) : Bool × WoundResult :=
  match oracle with
  | Except.ok data =>
      (false,
       { severity := data.severity.getD 0
         analysis := data.analysis.getD "Could not analyze image clearly."
         recommendations := data.recommendations.getD ["Consult a doctor."] })
  | Except.error _ =>
      (true,
       { severity := 0
         analysis := "Error analyzing image. Please ensure the photo is clear and try again."
         recommendations := ["Consult a doctor manually."] })

/-- `identifyPill` (`src/services/geminiService.ts`, lines 116-160): return
the parsed JSON on success, log and return the Unknown/Low fallback on any
error. -/
def identifyPillRun (oracle : Except Unit PillResult) : Bool × PillResult :=
  match oracle with
  | Except.ok d => (false, d)
  | Except.error _ =>
      (true,
       { name := "Unknown"
         description := "Could not identify pill."
         confidence := "Low"
         warning := some "Please consult your pharmacist." })

end Gemini

namespace Reminders

/-- The browser `Notification` payload built by `checkReminders`. -/
structure ReminderNote where
  title : String
  body : String
deriving DecidableEq, Repr

/-- The notification created for a due medication
(`src/components/PatientView.tsx`, lines 87-90). -/
def reminderNote (timeString : String) (med : Medication) : ReminderNote :=
  { title := "Time for " ++ med.name
    body := "It\x27s " ++ timeString ++ ". Take " ++ med.dosage ++ ". " ++ med.instructions }

/-- The `isTaken` check inside `checkReminders`: some log for this medication
is scheduled today, mentions this time slot, and has status `TAKEN`. -/
def isTakenLog (med : Medication) (timeString dateString : String) (log : DoseLog) : Bool :=
  log.medicationId == med.id &&
  jsStartsWith log.scheduledTime dateString &&
  jsIncludes log.scheduledTime timeString &&
  log.status == DoseStatus.TAKEN

/-- The notifications fired by one run of the `checkReminders` body. -/
def dueNotes (meds : List Medication) (logs : List DoseLog)
    (timeString dateString : String) : List ReminderNote :=
  (meds.filter (fun med =>
      med.status == MedStatus.ACTIVE &&
      med.times.contains timeString &&
      !(logs.any (isTakenLog med timeString dateString)))).map
    (reminderNote timeString)

/-- `checkReminders` (`src/components/PatientView.tsx`, lines 65-94): given
the current minute string, date string, and the `lastCheckedMinuteRef`
value, either skip (the guard: same minute already checked, result `none`)
or run the body and fire the due notifications.  The first component is the
updated `lastCheckedMinuteRef`. -/
def checkReminders (meds : List Medication) (logs : List DoseLog)
    (timeString dateString lastChecked : String) :
    String × Option (List ReminderNote) :=
  if lastChecked == timeString then (lastChecked, none)
  else (timeString, some (dueNotes meds logs timeString dateString))

/-- The 5-second polling loop (`setInterval(checkReminders, 5000)`): run
`checkReminders` on each tick `(timeString, dateString)`, threading the
`lastCheckedMinuteRef` state, and record per tick whether the body ran and
what it fired. -/
def pollRun (meds : List Medication) (logs : List DoseLog) :
    String → List (String × String) → List (Option (List ReminderNote))
  | _, [] => []
  | lastChecked, (t, d) :: ticks =>
      let res := checkReminders meds logs t d lastChecked
      res.2 :: pollRun meds logs res.1 ticks

/-- Minute strings of the tick sequence are grouped: between two ticks that
show the same minute string, every tick shows that same minute string.
This is how a 5-second wall-clock poll behaves within a day: all ticks of
one minute are contiguous. -/
def GroupedMinutes (ticks : List (String × String)) : Prop :=
  ∀ i j k : Fin ticks.length, i ≤ j → j ≤ k →
    (ticks.get i).1 = (ticks.get k).1 → (ticks.get j).1 = (ticks.get i).1

instance (ticks : List (String × String)) : Decidable (GroupedMinutes ticks) :=
  inferInstanceAs (Decidable (∀ _ _ _, _))

end Reminders

/-! ### Claim theorems -/

/-- A concrete message from `p1` to `d1`, for witnesses. -/
def msgA : StoredChatMessage :=
  { id := "m-a", senderId := "p1", receiverId := "d1",
    senderRole := ChatRole.patient, text := "hi", timestamp := 5 }

/-- A concrete message from `p1` to `d2`, for witnesses. -/
def msgB : StoredChatMessage :=
  { id := "m-b", senderId := "p1", receiverId := "d2",
    senderRole := ChatRole.patient, text := "x", timestamp := 3 }

/-- C1: for every stored message list and every pair of user ids `(a, b)`,
`getChatHistory(a, b)` returns exactly those messages whose
`(senderId, receiverId)` pair equals `(a, b)` or `(b, a)` (as a permutation
of the matching sublist, so with multiplicity), the result is sorted in
ascending order of the numeric `timestamp` field, and no message of any
other participant pair is included. -/
theorem chat_getChatHistory_exact_and_sorted
    (msgs : List StoredChatMessage) (a b : String) (now : Int) :
    ((ChatService.getChatHistory a b now (some msgs)).1).Perm
        (msgs.filter (fun m => ChatService.matchesPair a b m)) ∧
    List.Sorted ChatService.tsLE (ChatService.getChatHistory a b now (some msgs)).1 ∧
    ∀ m ∈ (ChatService.getChatHistory a b now (some msgs)).1,
      ChatService.matchesPair a b m = true := by
  refine ⟨List.perm_insertionSort _ _, List.sorted_insertionSort _ _, ?_⟩
  intro m hm
  have hmem : m ∈ msgs.filter (fun m => ChatService.matchesPair a b m) :=
    (List.perm_insertionSort ChatService.tsLE _).mem_iff.mp hm
  exact List.of_mem_filter hmem

/-- Witness for C1 at a concrete store: the message returned by
`getChatHistory("p1","d1")` does match the queried pair. -/
theorem chat_getChatHistory_exact_and_sorted_witness :
    ChatService.matchesPair "p1" "d1" msgA = true :=
  (chat_getChatHistory_exact_and_sorted [msgA, msgB] "p1" "d1" 0).2.2 msgA (by decide)

/-- C2: for every prior store state, `sendMessage` returns a record carrying
the four given fields, the stored list grows by exactly that one record
appended at the end (all previously stored records unchanged), and the
appended record is an element of the result of the next
`getChatHistory(senderId, receiverId)` call for that pair. -/
theorem chat_sendMessage_appends_and_visible
    (store : Option (List StoredChatMessage)) (s r : String) (role : ChatRole)
    (txt : String) (idNow now : Int) (msg : StoredChatMessage)
    (store' : Option (List StoredChatMessage))
    (h : ChatService.sendMessage s r role txt idNow now store = (msg, store')) :
    msg.senderId = s ∧ msg.receiverId = r ∧ msg.senderRole = role ∧ msg.text = txt ∧
    store' = some (store.getD [] ++ [msg]) ∧
    ∀ now' : Int, msg ∈ (ChatService.getChatHistory s r now' store').1 := by
  have hmsg : msg = (⟨toString idNow, s, r, role, txt, now⟩ : StoredChatMessage) := by
    simpa [ChatService.sendMessage] using congrArg Prod.fst h.symm
  have hstore : store' = some (store.getD [] ++ [msg]) := by
    subst hmsg
    simpa [ChatService.sendMessage] using congrArg Prod.snd h.symm
  subst hmsg
  refine ⟨rfl, rfl, rfl, rfl, hstore, ?_⟩
  intro now'
  subst hstore
  show _ ∈ (List.insertionSort ChatService.tsLE (List.filter _ _))
  refine (List.perm_insertionSort ChatService.tsLE _).mem_iff.mpr ?_
  refine List.mem_filter.mpr ⟨List.mem_append_right _ (List.mem_singleton.mpr rfl), ?_⟩
  simp [ChatService.matchesPair]

/-- Witness for C2 at a concrete send on the empty store. -/
theorem chat_sendMessage_appends_and_visible_witness :
    let msg : StoredChatMessage :=
      { id := "7", senderId := "p1", receiverId := "d1",
        senderRole := ChatRole.patient, text := "hello", timestamp := 7 }
    msg.senderId = "p1" ∧ msg.receiverId = "d1" ∧
    msg.senderRole = ChatRole.patient ∧ msg.text = "hello" ∧
    some ((none : Option (List StoredChatMessage)).getD [] ++ [msg]) = some [msg] ∧
    ∀ now' : Int, msg ∈ (ChatService.getChatHistory "p1" "d1" now' (some [msg])).1 := by
  intro msg
  have h := chat_sendMessage_appends_and_visible none "p1" "d1" ChatRole.patient
    "hello" 7 7 msg (some [msg]) (by decide)
  exact ⟨h.1, h.2.1, h.2.2.1, h.2.2.2.1, by decide, h.2.2.2.2.2⟩

/-- C3: after `deleteChatHistory(a, b)` on a stored message list, the store
contains no message of the pair `{a, b}`, and the remaining list is exactly
the non-matching messages of the old list, as a sublist (same records, same
relative order); every non-matching old message is still present. -/
theorem chat_deleteChatHistory_removes_exactly
    (msgs : List StoredChatMessage) (a b : String) (now : Int)
    (l : List StoredChatMessage)
    (h : ChatService.deleteChatHistory a b now (some msgs) = some l) :
    (∀ m ∈ l, ChatService.matchesPair a b m = false) ∧
    l = msgs.filter (fun m => !(ChatService.matchesPair a b m)) ∧
    l.Sublist msgs ∧
    (∀ m ∈ msgs, ChatService.matchesPair a b m = false → m ∈ l) := by
  have hl : l = msgs.filter (fun m => !(ChatService.matchesPair a b m)) := by
    simpa [ChatService.deleteChatHistory, ChatService.initChatStorage] using h.symm
  subst hl
  refine ⟨?_, rfl, List.filter_sublist _, ?_⟩
  · intro m hm
    have := List.of_mem_filter hm
    simpa using this
  · intro m hm hfalse
    exact List.mem_filter.mpr ⟨hm, by simp [hfalse]⟩

/-- Witness for C3 at a concrete store holding one matching and one
non-matching message. -/
theorem chat_deleteChatHistory_removes_exactly_witness :
    (∀ m ∈ [msgB], ChatService.matchesPair "p1" "d1" m = false) ∧
    [msgB] = List.filter (fun m => !(ChatService.matchesPair "p1" "d1" m)) [msgA, msgB] ∧
    List.Sublist [msgB] [msgA, msgB] ∧
    (∀ m ∈ [msgA, msgB],
       ChatService.matchesPair "p1" "d1" m = false → m ∈ [msgB]) :=
  chat_deleteChatHistory_removes_exactly [msgA, msgB] "p1" "d1" 0 [msgB] (by decide)

/-- C9: on a fresh store (local-storage key absent) `getChatHistory` and
`deleteChatHistory` first seed the store with exactly the two mock messages
while `sendMessage` never seeds; hence the first `getChatHistory` call for
the mock patient/doctor pair returns exactly the two seeded messages in
ascending timestamp order, and `deleteChatHistory` for any non-mock pair on
a fresh store leaves the two seeded messages in the store. -/
theorem chat_seeding_spec (now idNow : Int) (u1 u2 s r : String)
    (role : ChatRole) (txt : String) :
    (ChatService.getChatHistory u1 u2 now none).2 = some (ChatService.seedMessages now) ∧
    ChatService.deleteChatHistory u1 u2 now none
      = some ((ChatService.seedMessages now).filter
          (fun m => !(ChatService.matchesPair u1 u2 m))) ∧
    (ChatService.sendMessage s r role txt idNow now none).2
      = some [(ChatService.sendMessage s r role txt idNow now none).1] ∧
    (ChatService.getChatHistory ChatService.mockPatientId ChatService.mockDoctorId now none).1
      = ChatService.seedMessages now ∧
    (¬ ((u1 = ChatService.mockPatientId ∧ u2 = ChatService.mockDoctorId) ∨
        (u1 = ChatService.mockDoctorId ∧ u2 = ChatService.mockPatientId)) →
      ChatService.deleteChatHistory u1 u2 now none = some (ChatService.seedMessages now)) := by
  refine ⟨rfl, rfl, rfl, ?_, ?_⟩
  · show List.insertionSort ChatService.tsLE _ = _
    have hfilter : (ChatService.seedMessages now).filter
        (fun m => ChatService.matchesPair ChatService.mockPatientId ChatService.mockDoctorId m)
        = ChatService.seedMessages now := by
      simp [ChatService.seedMessages, ChatService.matchesPair,
        ChatService.mockPatientId, ChatService.mockDoctorId]
    have hinit : (ChatService.initChatStorage now none).getD []
        = ChatService.seedMessages now := rfl
    rw [hinit, hfilter]
    show List.orderedInsert _ _ (List.orderedInsert _ _ []) = _
    rw [List.orderedInsert_nil,
      List.orderedInsert_of_le ChatService.tsLE _
        (show ChatService.tsLE _ _ by
          simp only [ChatService.tsLE, ChatService.seedMessages]
          omega)]
    rfl
  · intro h
    show some _ = _
    congr 1
    have h1 : ChatService.matchesPair u1 u2 ((ChatService.seedMessages now).get ⟨0, by simp [ChatService.seedMessages]⟩) = false := by
      simp only [ChatService.seedMessages, ChatService.matchesPair,
        ChatService.mockPatientId, ChatService.mockDoctorId] at *
      simp only [List.get]
      rw [Bool.or_eq_false_iff, Bool.and_eq_false_iff, Bool.and_eq_false_iff]
      constructor
      · by_cases hu1 : "p1" = u1
        · right
          rw [beq_eq_false_iff_ne]
          intro hu2
          exact h (Or.inl ⟨hu1.symm, hu2.symm⟩)
        · left
          rw [beq_eq_false_iff_ne]
          exact hu1
      · by_cases hu2 : "p1" = u2
        · right
          rw [beq_eq_false_iff_ne]
          intro hu1
          exact h (Or.inr ⟨hu1.symm, hu2.symm⟩)
        · left
          rw [beq_eq_false_iff_ne]
          exact hu2
    have h2 : ChatService.matchesPair u1 u2 ((ChatService.seedMessages now).get ⟨1, by simp [ChatService.seedMessages]⟩) = false := by
      simp only [ChatService.seedMessages, ChatService.matchesPair,
        ChatService.mockPatientId, ChatService.mockDoctorId] at *
      simp only [List.get]
      rw [Bool.or_eq_false_iff, Bool.and_eq_false_iff, Bool.and_eq_false_iff]
      constructor
      · by_cases hu1 : "d1" = u1
        · right
          rw [beq_eq_false_iff_ne]
          intro hu2
          exact h (Or.inr ⟨hu1.symm, hu2.symm⟩)
        · left
          rw [beq_eq_false_iff_ne]
          exact hu1
      · by_cases hu2 : "d1" = u2
        · right
          rw [beq_eq_false_iff_ne]
          intro hu1
          exact h (Or.inl ⟨hu1.symm, hu2.symm⟩)
        · left
          rw [beq_eq_false_iff_ne]
          exact hu2
    simp only [ChatService.seedMessages, List.get] at h1 h2 ⊢
    simp [List.filter, h1, h2]

/-- Witness for C9: deleting the history of the non-mock pair `("x","y")`
on a fresh store leaves exactly the two seeded messages. -/
theorem chat_seeding_spec_witness :
    ChatService.deleteChatHistory "x" "y" 0 none = some (ChatService.seedMessages 0) :=
  (chat_seeding_spec 0 0 "x" "y" "s" "r" ChatRole.patient "t").2.2.2.2 (by decide)

/-- The first seed medication `m1` of `INITIAL_MEDS`
(`src/services/mockData.ts`), for witnesses. -/
def medM1 : Medication :=
  { id := "m1", name := "Lisinopril", dosage := "10mg", frequency := "Daily",
    times := ["09:00"], instructions := "Take with water. May cause dry cough.",
    startDate := "2023-01-01", status := MedStatus.ACTIVE, stock := 4,
    prescribedBy := some "d1" }

/-- The second seed medication `m2` of `INITIAL_MEDS`
(`src/services/mockData.ts`), for witnesses. -/
def medM2 : Medication :=
  { id := "m2", name := "Metformin", dosage := "500mg", frequency := "2x Daily",
    times := ["08:00", "20:00"],
    instructions := "Take with meals to reduce stomach upset.",
    startDate := "2023-02-15", status := MedStatus.ACTIVE, stock := 45,
    prescribedBy := some "d1" }

/-- A concrete taken-dose log for `m1`, for witnesses. -/
def demoLog : DoseLog :=
  { id := "1", medicationId := "m1", scheduledTime := "2024-01-01T09:00:00",
    takenTime := some "2024-01-01T09:01:00", status := DoseStatus.TAKEN }

/-- C4: when the dose log's `medicationId` matches some medication, taking a
dose appends exactly one dose log, replaces the matching medication's stock
`s` by `max 0 (s - 1)` (so the updated stock is never negative) while
changing none of its other fields, and leaves every other medication's
record unchanged at its position. -/
theorem app_handleTakeDose_spec (st : App.AppState) (log : DoseLog)
    (_h : ∃ m ∈ st.meds, m.id = log.medicationId) :
    (App.handleTakeDose st log).logs = st.logs ++ [log] ∧
    (App.handleTakeDose st log).meds.length = st.meds.length ∧
    (∀ (i : Nat) (old : Medication), st.meds[i]? = some old →
      (App.handleTakeDose st log).meds[i]?
        = some (if old.id = log.medicationId
                then { old with stock := max 0 (old.stock - 1) } else old)) ∧
    (∀ m ∈ st.meds, m.id = log.medicationId →
      ({ m with stock := max 0 (m.stock - 1) } : Medication)
          ∈ (App.handleTakeDose st log).meds ∧
      0 ≤ max 0 (m.stock - 1)) := by
  refine ⟨rfl, by simp [App.handleTakeDose], ?_, ?_⟩
  · intro i old hold
    simp [App.handleTakeDose, List.getElem?_map, hold]
  · intro m hm hid
    refine ⟨?_, le_max_left 0 _⟩
    exact List.mem_map.mpr ⟨m, hm, by simp [hid]⟩

/-- Witness for C4: taking a dose of `m1` from a two-medication state yields
the stock-decremented `m1` record, and the new stock is non-negative. -/
theorem app_handleTakeDose_spec_witness :
    ({ medM1 with stock := max 0 (medM1.stock - 1) } : Medication)
        ∈ (App.handleTakeDose ⟨[medM1, medM2], []⟩ demoLog).meds ∧
    0 ≤ max 0 (medM1.stock - 1) :=
  (app_handleTakeDose_spec ⟨[medM1, medM2], []⟩ demoLog (by decide)).2.2.2
    medM1 (by decide) (by decide)

/-- C5: for every medication list and every medication id present in it, the
refill handler adds the fixed amount 30 to that medication's stock (changing
no other field of it) and leaves every other medication's record entirely
unchanged at its position. -/
theorem app_handleRefill_spec (medId : String) (meds : List Medication)
    (_h : ∃ m ∈ meds, m.id = medId) :
    (App.handleRefill medId meds).length = meds.length ∧
    (∀ (i : Nat) (old : Medication), meds[i]? = some old →
      (App.handleRefill medId meds)[i]?
        = some (if old.id = medId then { old with stock := old.stock + 30 } else old)) ∧
    (∀ m ∈ meds, m.id = medId →
      ({ m with stock := m.stock + 30 } : Medication) ∈ App.handleRefill medId meds) ∧
    (∀ (i : Nat) (old : Medication), meds[i]? = some old → old.id ≠ medId →
      (App.handleRefill medId meds)[i]? = some old) := by
  refine ⟨by simp [App.handleRefill], ?_, ?_, ?_⟩
  · intro i old hold
    simp [App.handleRefill, List.getElem?_map, hold]
  · intro m hm hid
    exact List.mem_map.mpr ⟨m, hm, by simp [hid]⟩
  · intro i old hold hne
    simp [App.handleRefill, List.getElem?_map, hold, hne]

/-- Witness for C5: refilling `m1` in a two-medication list bumps its stock
by 30 and leaves `m2` unchanged at its position. -/
theorem app_handleRefill_spec_witness :
    ({ medM1 with stock := medM1.stock + 30 } : Medication)
        ∈ App.handleRefill "m1" [medM1, medM2] ∧
    (App.handleRefill "m1" [medM1, medM2])[1]? = some medM2 := by
  constructor
  · exact (app_handleRefill_spec "m1" [medM1, medM2] (by decide)).2.2.1
      medM1 (by decide) (by decide)
  · exact (app_handleRefill_spec "m1" [medM1, medM2] (by decide)).2.2.2
      1 medM2 (by decide) (by decide)

/-- C6: the two `checkDrugInteractions` versions are never extensionally
equal — seen as JavaScript values, the string version's result and the
structured version's result differ on every input — yet for every medication
list with fewer than two elements both short-circuit with the fixed
no-interaction result ("No interactions found (single medication).") whose
value does not depend on the hosted-model oracle at all. -/
theorem gemini_checkDrugInteractions_shape_mismatch
    (meds : List Medication) (o1 : Except Unit (Option String))
    (o2 : Except Unit Gemini.InteractionReport) :
    Gemini.JsInteractionValue.vStr (Gemini.checkDrugInteractionsV1 meds o1).2
      ≠ Gemini.JsInteractionValue.vObj (Gemini.checkDrugInteractionsV2 meds o2) ∧
    (meds.length < 2 →
      (Gemini.checkDrugInteractionsV1 meds o1).2
        = "No interactions found (single medication)." ∧
      Gemini.checkDrugInteractionsV2 meds o2
        = { hasInteractions := false,
            summary := "No interactions found (single medication)." } ∧
      (∀ o1' : Except Unit (Option String),
        Gemini.checkDrugInteractionsV1 meds o1 = Gemini.checkDrugInteractionsV1 meds o1') ∧
      (∀ o2' : Except Unit Gemini.InteractionReport,
        Gemini.checkDrugInteractionsV2 meds o2 = Gemini.checkDrugInteractionsV2 meds o2')) := by
  refine ⟨by simp, ?_⟩
  intro hlt
  refine ⟨by simp [Gemini.checkDrugInteractionsV1, hlt],
    by simp [Gemini.checkDrugInteractionsV2, hlt], ?_, ?_⟩
  · intro o1'
    simp [Gemini.checkDrugInteractionsV1, hlt]
  · intro o2'
    simp [Gemini.checkDrugInteractionsV2, hlt]

/-- Witness for C6 at a single-medication list and concrete oracles. -/
theorem gemini_checkDrugInteractions_shape_mismatch_witness :
    (Gemini.checkDrugInteractionsV1 [medM1] (Except.error ())).2
      = "No interactions found (single medication)." ∧
    Gemini.checkDrugInteractionsV2 [medM1] (Except.error ())
      = { hasInteractions := false,
          summary := "No interactions found (single medication)." } := by
  have h := (gemini_checkDrugInteractions_shape_mismatch [medM1]
    (Except.error ()) (Except.error ())).2 (by decide)
  exact ⟨h.1, h.2.1⟩

/-- Counterexample for C7 as stated: on a model-call failure with two
medications, the string-version `checkDrugInteractions` does return its
hardcoded fallback but does NOT log the error to the console — its `catch`
block has no `console.error` call — so "logs the error to console and
returns its hardcoded fallback" is false there. -/
theorem gemini_checkDrugInteractions_silent_catch :
    ¬ ((Gemini.checkDrugInteractionsV1 [medM1, medM2] (Except.error ())).1 = true ∧
       (Gemini.checkDrugInteractionsV1 [medM1, medM2] (Except.error ())).2
         = "Unable to verify interactions at this time.") := by
  decide

/-- C7 (amended): whenever the model call or JSON parse fails, every AI
gateway function returns its hardcoded fallback value of the declared type
instead of throwing; `sendChatMessage`, `analyzeWoundImage` and
`identifyPill` additionally log the error to the console, while the
string-version `checkDrugInteractions` returns its fallback without
logging. -/
theorem gemini_fallbacks_on_error (meds : List Medication)
    (h2 : 2 ≤ meds.length) :
    Gemini.sendChatMessageRun (Except.error ())
      = (true, "I\x27m having trouble connecting to the medical database right now. Please try again later.") ∧
    Gemini.checkDrugInteractionsV1 meds (Except.error ())
      = (false, "Unable to verify interactions at this time.") ∧
    Gemini.analyzeWoundImageRun (Except.error ())
      = (true,
         { severity := 0
           analysis := "Error analyzing image. Please ensure the photo is clear and try again."
           recommendations := ["Consult a doctor manually."] }) ∧
    Gemini.identifyPillRun (Except.error ())
      = (true,
         { name := "Unknown"
           description := "Could not identify pill."
           confidence := "Low"
           warning := some "Please consult your pharmacist." }) := by
  refine ⟨rfl, ?_, rfl, rfl⟩
  rw [Gemini.checkDrugInteractionsV1, if_neg (by omega)]

/-- Witness for C7's amended theorem at the two seed medications. -/
theorem gemini_fallbacks_on_error_witness :
    Gemini.checkDrugInteractionsV1 [medM1, medM2] (Except.error ())
      = (false, "Unable to verify interactions at this time.") :=
  (gemini_fallbacks_on_error [medM1, medM2] (by decide)).2.1

/-- After each `checkReminders` call the `lastCheckedMinuteRef` value equals
the minute string just processed (either it already did, or it was just
written). -/
theorem Reminders.checkReminders_fst (meds : List Medication)
    (logs : List DoseLog) (t d last : String) :
    (Reminders.checkReminders meds logs t d last).1 = t := by
  unfold Reminders.checkReminders
  by_cases h : last == t
  · simp only [h, if_true]
    exact beq_iff_eq.mp h
  · simp [h]

/-- If two consecutive poll ticks show the same minute string, the guard
skips the body on the second one. -/
theorem Reminders.pollRun_skip_consecutive (meds : List Medication)
    (logs : List DoseLog) :
    ∀ (j : Nat) (ticks : List (String × String)) (last : String)
      (tj tj1 : String × String),
      ticks[j]? = some tj → ticks[j + 1]? = some tj1 → tj.1 = tj1.1 →
      (Reminders.pollRun meds logs last ticks)[j + 1]? = some none := by
  intro j
  induction j with
  | zero =>
    intro ticks last tj tj1 h0 h1 heq
    match ticks, h0, h1 with
    | (ta, td) :: (tb, tdb) :: rest, h0, h1 =>
      simp only [List.getElem?_cons_zero, Option.some.injEq] at h0
      simp only [List.getElem?_cons_succ, List.getElem?_cons_zero,
        Option.some.injEq] at h1
      subst h0
      subst h1
      simp only [Reminders.pollRun, List.getElem?_cons_succ,
        List.getElem?_cons_zero, Option.some.injEq]
      have hfst : (Reminders.checkReminders meds logs ta td last).1 = ta :=
        Reminders.checkReminders_fst meds logs ta td last
      rw [hfst]
      simp only at heq
      rw [heq]
      unfold Reminders.checkReminders
      rw [if_pos (beq_self_eq_true tb)]
  | succ k ih =>
    intro ticks last tj tj1 h0 h1 heq
    match ticks with
    | [] => simp at h0
    | (ta, td) :: rest =>
      simp only [List.getElem?_cons_succ] at h0 h1
      simp only [Reminders.pollRun, List.getElem?_cons_succ]
      exact ih rest _ tj tj1 h0 h1 heq

/-- C8: (1) one run of the `checkReminders` body fires a notification only
for a medication that is `ACTIVE`, whose `times` list contains the current
minute string, and for which no dose log is scheduled today (`startsWith`
the date string), mentions that time string, and has status `TAKEN`;
(2) across the 5-second polling loop, the once-per-minute guard makes the
body run at most once per distinct minute string: whenever a tick repeats
the minute string of an earlier tick (minute strings being grouped, as
wall-clock polling produces them), the body is skipped at the later tick. -/
theorem reminders_fire_conditions_and_once_per_minute :
    (∀ (meds : List Medication) (logs : List DoseLog)
       (t d last : String) (fired : List Reminders.ReminderNote),
       (Reminders.checkReminders meds logs t d last).2 = some fired →
       ∀ n ∈ fired, ∃ med ∈ meds,
         n = Reminders.reminderNote t med ∧
         med.status = MedStatus.ACTIVE ∧
         med.times.contains t = true ∧
         ¬ ∃ log ∈ logs, (log.medicationId = med.id ∧
            jsStartsWith log.scheduledTime d = true ∧
            jsIncludes log.scheduledTime t = true ∧
            log.status = DoseStatus.TAKEN)) ∧
    (∀ (meds : List Medication) (logs : List DoseLog) (init : String)
       (ticks : List (String × String)) (i j : Nat) (ti tj : String × String),
       Reminders.GroupedMinutes ticks → i < j →
       ticks[i]? = some ti → ticks[j]? = some tj → ti.1 = tj.1 →
       (Reminders.pollRun meds logs init ticks)[j]? = some none) := by
  constructor
  · intro meds logs t d last fired hfired n hn
    unfold Reminders.checkReminders at hfired
    by_cases h : last == t
    · rw [if_pos h] at hfired
      exact absurd hfired (by simp)
    · rw [if_neg h] at hfired
      have hf : fired = Reminders.dueNotes meds logs t d := by
        simpa using hfired.symm
      subst hf
      obtain ⟨med, hmedfil, hnote⟩ := List.mem_map.mp hn
      obtain ⟨hmem, hp⟩ := List.mem_filter.mp hmedfil
      simp only [Bool.and_eq_true, beq_iff_eq, Bool.not_eq_true'] at hp
      refine ⟨med, hmem, hnote.symm, hp.1.1, hp.1.2, ?_⟩
      rintro ⟨log, hlog, hc1, hc2, hc3, hc4⟩
      have htaken : Reminders.isTakenLog med t d log = true := by
        simp [Reminders.isTakenLog, hc1, hc2, hc3, hc4]
      have : logs.any (Reminders.isTakenLog med t d) = true :=
        List.any_eq_true.mpr ⟨log, hlog, htaken⟩
      rw [hp.2] at this
      exact Bool.false_ne_true this
  · intro meds logs init ticks i j ti tj hgrp hij hti htj heq
    match j, hij with
    | k + 1, hij =>
      have hj : k + 1 < ticks.length := by
        rcases List.getElem?_eq_some.mp htj with ⟨hlt, _⟩
        exact hlt
      have hk : k < ticks.length := Nat.lt_of_succ_lt hj
      have hi : i < ticks.length := Nat.lt_trans hij hj
      have htj' : ticks.get ⟨k + 1, hj⟩ = tj := by
        rcases List.getElem?_eq_some.mp htj with ⟨_, hv⟩
        simpa [List.get_eq_getElem] using hv
      have hti' : ticks.get ⟨i, hi⟩ = ti := by
        rcases List.getElem?_eq_some.mp hti with ⟨_, hv⟩
        simpa [List.get_eq_getElem] using hv
      have hgk := hgrp ⟨i, hi⟩ ⟨k, hk⟩ ⟨k + 1, hj⟩
        (by exact Nat.lt_succ_iff.mp hij) (by exact Nat.le_succ k)
        (by rw [hti', htj', heq])
      have hkfst : (ticks.get ⟨k, hk⟩).1 = tj.1 := by
        rw [hgk, hti', heq]
      refine Reminders.pollRun_skip_consecutive meds logs k ticks init
        (ticks.get ⟨k, hk⟩) tj ?_ htj hkfst
      rw [List.getElem?_eq_getElem hk]
      simp [List.get_eq_getElem]

/-- Witness for C8: with one active medication due at 09:00 and no logs, the
body fires exactly the expected notification on the first tick, and a second
tick within the same minute is skipped by the guard. -/
theorem reminders_fire_conditions_and_once_per_minute_witness :
    (∃ med ∈ [medM1],
       Reminders.reminderNote "09:00" medM1 = Reminders.reminderNote "09:00" med ∧
       med.status = MedStatus.ACTIVE ∧
       med.times.contains "09:00" = true ∧
       ¬ ∃ log ∈ ([] : List DoseLog), (log.medicationId = med.id ∧
          jsStartsWith log.scheduledTime "2024-01-01" = true ∧
          jsIncludes log.scheduledTime "09:00" = true ∧
          log.status = DoseStatus.TAKEN)) ∧
    (Reminders.pollRun [medM1] []
        "" [("09:00", "2024-01-01"), ("09:00", "2024-01-01")])[1]? = some none := by
  constructor
  · exact reminders_fire_conditions_and_once_per_minute.1 [medM1] []
      "09:00" "2024-01-01" "" (Reminders.dueNotes [medM1] [] "09:00" "2024-01-01")
      (by decide) (Reminders.reminderNote "09:00" medM1) (by decide)
  · exact reminders_fire_conditions_and_once_per_minute.2 [medM1] [] ""
      [("09:00", "2024-01-01"), ("09:00", "2024-01-01")] 0 1
      ("09:00", "2024-01-01") ("09:00", "2024-01-01")
      (by decide) (by decide) (by decide) (by decide) rfl

/-- A concrete catalog product, for witnesses. -/
def demoProduct : Product :=
  { id := "pr1", name := "PainAway Ibuprofen", category := "Pain Relief",
    price := 10, image := "img-url", description := "Fast pain relief",
    stock := 10 }

/-- A concrete cart line for `demoProduct`, for witnesses. -/
def demoLine : CartItem := App.cartItemOfProduct demoProduct 1

/-- A map that does not change the `id` field preserves pairwise-distinct
cart ids. -/
theorem App.pairwise_ids_map (cart : List CartItem) (f : CartItem → CartItem)
    (hf : ∀ i, (f i).id = i.id)
    (h : cart.Pairwise (fun a b => a.id ≠ b.id)) :
    (cart.map f).Pairwise (fun a b => a.id ≠ b.id) := by
  rw [List.pairwise_map]
  exact h.imp (fun hab => by rw [hf, hf]; exact hab)

/-- Appending a line with a fresh id and positive quantity preserves the
cart invariant. -/
theorem App.cartInvariant_append_new (cart : List CartItem)
    (hinv : App.cartInvariant cart) (newLine : CartItem)
    (hq : 1 ≤ newLine.quantity) (hid : ∀ x ∈ cart, x.id ≠ newLine.id) :
    App.cartInvariant (cart ++ [newLine]) := by
  obtain ⟨hq1, hpair⟩ := hinv
  constructor
  · intro it hit
    rcases List.mem_append.mp hit with hold | hnew
    · exact hq1 it hold
    · rw [List.mem_singleton.mp hnew]
      exact hq
  · refine List.pairwise_append.mpr ⟨hpair, List.pairwise_singleton _ _, ?_⟩
    intro a ha b hb
    rw [List.mem_singleton.mp hb]
    exact hid a ha

/-- Counterexample for C10 as stated: adding a product with quantity 0 to
the empty cart creates a line of quantity 0, so the add operation does not
preserve the invariant for every quantity argument. -/
theorem cart_add_nonpositive_breaks_invariant :
    ¬ App.cartInvariant (App.handleAddToCart [] (Sum.inl demoProduct) 0) := by
  decide

/-- C10 (amended): every cart operation preserves the invariant that each
line has quantity at least 1 and that there is at most one line per product
id, where add-to-cart is called with a positive quantity; adding an item
whose id is already in the cart bumps that line's quantity by the given
amount instead of creating a duplicate line, and quantity updates clamp at
a minimum of 1. -/
theorem cart_ops_preserve_invariant (cart : List CartItem)
    (hinv : App.cartInvariant cart) :
    (∀ (item : Product ⊕ Medication) (q : Int), 1 ≤ q →
       App.cartInvariant (App.handleAddToCart cart item q)) ∧
    (∀ (id : String) (delta : Int),
       App.cartInvariant (App.handleUpdateCartQuantity cart id delta)) ∧
    (∀ id : String, App.cartInvariant (App.handleRemoveFromCart cart id)) ∧
    App.cartInvariant App.handleClearCart ∧
    (∀ (item : Product ⊕ Medication) (q : Int) (line : CartItem),
       line ∈ cart → line.id = App.itemIdOf item →
       (App.handleAddToCart cart item q).length = cart.length ∧
       ({ line with quantity := line.quantity + q } : CartItem)
         ∈ App.handleAddToCart cart item q) ∧
    (∀ (id : String) (delta : Int) (line : CartItem),
       line ∈ cart → line.id = id →
       ({ line with quantity := max 1 (line.quantity + delta) } : CartItem)
         ∈ App.handleUpdateCartQuantity cart id delta) := by
  obtain ⟨hq1, hpair⟩ := hinv
  refine ⟨?_, ?_, ?_, ⟨by simp [App.handleClearCart], by simp [App.handleClearCart]⟩, ?_, ?_⟩
  · -- add preserves the invariant for positive quantities
    intro item q hq
    unfold App.handleAddToCart
    cases hfind : cart.find? (fun i => i.id == App.itemIdOf item) with
    | some e =>
      constructor
      · intro it hit
        obtain ⟨i0, hi0, hrew⟩ := List.mem_map.mp hit
        by_cases hid : i0.id = App.itemIdOf item
        · rw [← hrew, if_pos hid]
          have := hq1 i0 hi0
          simp only
          omega
        · rw [← hrew, if_neg hid]
          exact hq1 i0 hi0
      · refine App.pairwise_ids_map cart _ ?_ hpair
        intro i
        by_cases hid : i.id = App.itemIdOf item
        · rw [if_pos hid]
        · rw [if_neg hid]
    | none =>
      have hnot : ∀ x ∈ cart, x.id ≠ App.itemIdOf item := by
        intro x hx
        have := List.find?_eq_none.mp hfind x hx
        simpa using this
      cases item with
      | inl p =>
        exact App.cartInvariant_append_new cart ⟨hq1, hpair⟩ _ hq
          (fun x hx => hnot x hx)
      | inr med =>
        exact App.cartInvariant_append_new cart ⟨hq1, hpair⟩ _ hq
          (fun x hx => hnot x hx)
  · -- update clamps at 1 and preserves the invariant for any delta
    intro id delta
    constructor
    · intro it hit
      obtain ⟨i0, hi0, hrew⟩ := List.mem_map.mp hit
      by_cases hid : i0.id = id
      · rw [← hrew, if_pos hid]
        exact le_max_left 1 _
      · rw [← hrew, if_neg hid]
        exact hq1 i0 hi0
    · refine App.pairwise_ids_map cart _ ?_ hpair
      intro i
      by_cases hid : i.id = id
      · rw [if_pos hid]
      · rw [if_neg hid]
  · -- remove preserves the invariant
    intro id
    constructor
    · intro it hit
      exact hq1 it (List.mem_of_mem_filter hit)
    · exact hpair.sublist (List.filter_sublist cart)
  · -- adding an existing id bumps in place, no duplicate line
    intro item q line hmem hlid
    have hfind : ∃ e, cart.find? (fun i => i.id == App.itemIdOf item) = some e := by
      cases hf : cart.find? (fun i => i.id == App.itemIdOf item) with
      | some e => exact ⟨e, rfl⟩
      | none =>
        have := List.find?_eq_none.mp hf line hmem
        simp [hlid] at this
    obtain ⟨e, he⟩ := hfind
    unfold App.handleAddToCart
    rw [he]
    refine ⟨List.length_map cart _, ?_⟩
    exact List.mem_map.mpr ⟨line, hmem, by rw [if_pos hlid]⟩
  · -- update bumps the matching line, clamped below at 1
    intro id delta line hmem hlid
    unfold App.handleUpdateCartQuantity
    exact List.mem_map.mpr ⟨line, hmem, by rw [if_pos hlid]⟩

/-- Witness for the amended C10 at a one-line cart: an add with quantity 2
and an update with delta -5 both keep the invariant. -/
theorem cart_ops_preserve_invariant_witness :
    App.cartInvariant (App.handleAddToCart [demoLine] (Sum.inl demoProduct) 2) ∧
    App.cartInvariant (App.handleUpdateCartQuantity [demoLine] "pr1" (-5)) :=
  ⟨(cart_ops_preserve_invariant [demoLine] (by decide)).1
      (Sum.inl demoProduct) 2 (by decide),
   (cart_ops_preserve_invariant [demoLine] (by decide)).2.1 "pr1" (-5)⟩

end MedSync
